import Mathlib

/-!
Verification of the calculation-state-machine core of `vasp_manager`.

The definitions below are shallow embeddings of the Python sources:
  * `job_exists`, `jobid_get`, `submit_job`, `job_complete`
      from `vasp_manager/job_manager.py` (class `JobManager`);
  * `address_vasp_errors`, `rlxCoarseCheckCalc`, `rlxCheckCalc`,
      `checkVolumeDifference`, `elasticCheckCalc`
      from `vasp_manager/calculation_manager/{base,rlx_coarse,rlx,elastic}.py`;
  * `makeArchiveAndRepopulate`, `sourceContcar`, `retryN`
      from `vasp_manager/vasp_input_creator.py`;
  * `managePass`, `updateStore`, `runPasses`
      from `vasp_manager/vasp_manager.py` (`VaspManager._manage_calculations`
      and `run_calculations`).

Filesystem contents (marker files, log lines, INCAR tag values, archive
directories) are modelled explicitly as data; external effects (sbatch,
squeue, file creation performed inside `setup_calc`) are modelled as
events recorded in the returned state.  Python exceptions are modelled
with `Except`.
-/

/-- Python exception kinds raised by the modelled code paths. -/
inductive PyExn
  /-- `RuntimeError` from the `jobid` setter on an unparseable job id. -/
  | runtimeError
  /-- generic `Exception` ("jobid has not been set"). -/
  | notSetError
  /-- `ValueError` from `int(...)` on a non-numeric token. -/
  | valueError
  /-- `IndexError` from indexing a too-short token list. -/
  | indexError
deriving DecidableEq

/-- Substring test on character lists: does `pat` occur inside `l`?
Models Python's `in` operator on strings. -/
def containsSub (pat : List Char) : List Char → Bool
  | [] => pat.isEmpty
  | c :: t => pat.isPrefixOf (c :: t) || containsSub pat t

/-- Python `pat in s` for strings. -/
def strContains (s pat : String) : Bool :=
  containsSub pat.toList s.toList

/-- Python `str.strip()` on a character list. -/
def pyStrip (l : List Char) : List Char :=
  ((l.dropWhile Char.isWhitespace).reverse.dropWhile Char.isWhitespace).reverse

/-- Accumulating decimal parse of a digit run; fails on any non-digit. -/
def digitsToNat (acc : Nat) : List Char → Option Nat
  | [] => some acc
  | c :: t => if c.isDigit then digitsToNat (acc * 10 + (c.toNat - 48)) t else none

/-- Python `int(...)` on an already-stripped character list: an optional
sign followed by a non-empty digit run, else a `ValueError` (`none`). -/
def parseIntChars : List Char → Option Int
  | [] => none
  | '-' :: t => if t = [] then none else (digitsToNat 0 t).map (fun n => -(n : Int))
  | '+' :: t => if t = [] then none else (digitsToNat 0 t).map (fun n => (n : Int))
  | l => (digitsToNat 0 l).map (fun n => (n : Int))

/-- Helper of `pySplitWs`: split at whitespace characters, keeping empty
fields (the accumulator holds the current field reversed). -/
def splitWsAux (cur : List Char) : List Char → List (List Char)
  | [] => [cur.reverse]
  | c :: t =>
    if c.isWhitespace then cur.reverse :: splitWsAux [] t
    else splitWsAux (c :: cur) t

/-- Python `str.split()` with no separator: split on whitespace runs,
discarding empty fields. -/
def pySplitWs (l : List Char) : List (List Char) :=
  (splitWsAux [] l).filter (fun w => w ≠ [])

/-- State of one `JobManager` instance plus its stage directory:
the `jobid` marker file (`none` when absent, otherwise its contents),
the `_jobid` / `_job_complete` attributes (unset = `none`), and counters
recording how many `sbatch` submissions and `squeue` polls have run. -/
structure JMState where
  jobidFile : Option String
  cachedJobid : Option Int
  cachedComplete : Option Bool
  subCount : Nat
  pollCount : Nat

/-- External environment of a `JobManager`: the configured computer name,
whether the `vasp.q` scheduler script exists in the stage directory, the
job id the scheduler returns on the k-th submission, and the current
`squeue` listing (one list of whitespace-split words per line). -/
structure JobEnv where
  computer : String
  exeExists : Bool
  sbatchIds : Nat → Nat
  squeueLines : List (List String)

/-- `JobManager.job_exists` (job_manager.py 79-90): false when the marker
file is absent or has size 0; otherwise reads and strips the contents and
assigns `self.jobid`, whose setter parses an integer and raises
`RuntimeError` when parsing fails. -/
def job_exists (st : JMState) : Except PyExn (Bool × JMState) :=
  match st.jobidFile with
  | none => .ok (false, st)
  | some content =>
    if content = "" then .ok (false, st)
    else
      match parseIntChars (pyStrip content.data) with
      | some n => .ok (true, { st with cachedJobid := some n })
      | none => .error .runtimeError

/-- `JobManager.jobid` getter (job_manager.py 92-96): raises when
`job_exists` is false, else returns the cached parsed id. -/
def jobid_get (st : JMState) : Except PyExn (Int × JMState) :=
  match job_exists st with
  | .error e => .error e
  | .ok (false, _) => .error .notSetError
  | .ok (true, st1) =>
    match st1.cachedJobid with
    | some n => .ok (n, st1)
    | none => .error .notSetError

/-- `JobManager.submit_job` (job_manager.py 106-145): no-op returning true
if a job already exists; no-op returning true on a "personal" computer
(substring test); returns false when the scheduler script is missing;
otherwise runs `sbatch`, parses the returned job id, and writes it
(newline-terminated) to the marker file. -/
def submit_job (env : JobEnv) (st : JMState) : Except PyExn (Bool × JMState) :=
  match job_exists st with
  | .error e => .error e
  | .ok (true, st1) => .ok (true, st1)
  | .ok (false, st1) =>
    if strContains env.computer "personal" then .ok (true, st1)
    else if env.exeExists = false then .ok (false, st1)
    else
      let id := env.sbatchIds st1.subCount
      .ok (true, { st1 with
        jobidFile := some (toString id ++ "\n"),
        cachedJobid := some (Int.ofNat id),
        subCount := st1.subCount + 1 })

/-- Both results of calling `submit_job` twice in a row. -/
def submitTwice (env : JobEnv) (st : JMState) : Except PyExn (Bool × Bool) :=
  match submit_job env st with
  | .error e => .error e
  | .ok (b1, st1) =>
    match submit_job env st1 with
    | .error e => .error e
    | .ok (b2, _) => .ok (b1, b2)

/-- `JobManager._check_job_complete` (job_manager.py 155-174):
unconditionally true on computer "personal" (equality test); otherwise
polls `squeue` and reports complete iff no line's word list contains the
job id.  The poll counter records the `squeue` call. -/
def check_job_complete (env : JobEnv) (id : Int) (st : JMState) : Bool × JMState :=
  if env.computer = "personal" then (true, st)
  else
    let running := env.squeueLines.any (fun line => line.contains (toString id))
    (!running, { st with pollCount := st.pollCount + 1 })

/-- `JobManager.job_complete` property (job_manager.py 147-153):
`if getattr(self, "_job_complete", None) is None and self.job_exists:`
compute and cache `_check_job_complete()`; `else:` set `_job_complete`
to False.  Note the `else` branch also fires when `_job_complete` was
already set. -/
def job_complete (env : JobEnv) (st : JMState) : Except PyExn (Bool × JMState) :=
  match st.cachedComplete with
  | some _ => .ok (false, { st with cachedComplete := some false })
  | none =>
    match job_exists st with
    | .error e => .error e
    | .ok (false, st1) => .ok (false, { st1 with cachedComplete := some false })
    | .ok (true, st1) =>
      match st1.cachedJobid with
      | some id =>
        let r := check_job_complete env id st1
        .ok (r.1, { r.2 with cachedComplete := some r.1 })
      | none => .error .notSetError

/-- Both results of reading `job_complete` twice on one instance, plus
the total number of `squeue` polls performed. -/
def jcTwice (env : JobEnv) (st : JMState) : Except PyExn (Bool × Bool × Nat) :=
  match job_complete env st with
  | .error e => .error e
  | .ok (b1, st1) =>
    match job_complete env st1 with
    | .error e => .error e
    | .ok (b2, st2) => .ok (b1, b2, st2.pollCount)

/-- Environment wellformedness: the decimal form of every id the scheduler
returns, as written to the marker file (newline-terminated), parses back
to that id.  Holds for every actual decimal token; assumed because string
round-trip lemmas are proved per concrete instance. -/
def EnvWF (env : JobEnv) : Prop :=
  ∀ k, parseIntChars (pyStrip ((toString (env.sbatchIds k)) ++ "\n").data)
    = some (Int.ofNat (env.sbatchIds k))

/-- A fresh stage directory with no marker and unset caches. -/
def jmEmpty : JMState :=
  { jobidFile := none, cachedJobid := none, cachedComplete := none,
    subCount := 0, pollCount := 0 }

/-- Environment on the cluster with the scheduler script missing. -/
def envNoScript : JobEnv :=
  { computer := "perlmutter", exeExists := false,
    sbatchIds := fun _ => 12345, squeueLines := [] }

/-- The "personal" (non-cluster) environment. -/
def envPersonal : JobEnv :=
  { computer := "personal", exeExists := true,
    sbatchIds := fun _ => 12345, squeueLines := [] }

/-- A cluster environment whose queue listing does not mention job 12345. -/
def envQuest : JobEnv :=
  { computer := "quest", exeExists := true,
    sbatchIds := fun _ => 12345,
    squeueLines := [["JOBID", "USER", "STATE"], ["999", "dale", "R"]] }

/-- A state whose marker file holds job id 12345. -/
def jmWithJob : JMState :=
  { jobidFile := some "12345\n", cachedJobid := none, cachedComplete := none,
    subCount := 0, pollCount := 0 }

/-- Arguments of one `setup_calc` invocation, as recorded by the check
procedures (calculation_manager/{rlx_coarse,rlx,elastic}.py).
`fromScratch` records a preceding `self._from_scratch()` call (elastic). -/
structure SetupArgs where
  nodesFactor : Nat
  walltimeFactor : Nat
  makeArchive : Bool
  useSpin : Bool
  fromScratch : Bool
deriving DecidableEq

/-- The default arguments of `setup_calc`. -/
def setupDefault : SetupArgs :=
  { nodesFactor := 1, walltimeFactor := 1, makeArchive := false,
    useSpin := true, fromScratch := false }

/-- Side effects performed by one `check_calc` call: whether `self.stop()`
wrote the STOP marker, whether `_cancel_previous_job` ran, and the list of
`setup_calc` invocations. -/
structure CheckEffects where
  stopCalled : Bool
  cancelCalled : Bool
  setups : List SetupArgs
deriving DecidableEq

/-- No side effects. -/
def noEffects : CheckEffects :=
  { stopCalled := false, cancelCalled := false, setups := [] }

/-- One remediation step of `BaseCalculationManager._address_vasp_errors`
(calculation_manager/base.py 212-252), given the current INCAR `ALGO` and
`SYMPREC` values as parsed by `_parse_incar_tag`: "Sub-Space-Matrix" is
addressed unless `ALGO` already equals the proposed "Fast"; "Inconsistent
Bravais" unless `SYMPREC` already equals "1e-08"; "oom-kill" always; any
other tag never. -/
def addressError (algo symprec e : String) : Bool :=
  if e = "Sub-Space-Matrix" then (if algo = "Fast" then false else true)
  else if e = "Inconsistent Bravais" then (if symprec = "1e-08" then false else true)
  else if e = "oom-kill" then true
  else false

/-- `_address_vasp_errors` returns `all(errors_addressed.values())`. -/
def address_vasp_errors (algo symprec : String) (errors : List String) : Bool :=
  errors.all (addressError algo symprec)

/-- Observable state of one relaxation stage directory as consumed by
`check_calc`: completion status of the job, existence of `stdout.txt`, the
error tags `_check_vasp_errors` finds, the INCAR `ALGO`/`SYMPREC` values,
the last reported magnetic moment per atom (`none` when "mag=" never
appears), whether "reached required accuracy" occurs in stdout, and the
number of `archive*` directories. -/
structure RelaxState where
  jobComplete : Bool
  stdoutExists : Bool
  vaspErrors : List String
  algo : String
  symprec : String
  magmomPerAtom : Option ℚ
  hasAccuracyMarker : Bool
  numArchives : Nat

/-- Spin decision in `RlxCalculationManager.check_calc` (rlx.py 143-147):
no spin when no moment was ever reported, else spin iff the magnitude of
the previous moment per atom reaches the cutoff. -/
def rlxUseSpin (m : Option ℚ) (cutoff : ℚ) : Bool :=
  match m with
  | none => false
  | some v => decide (cutoff ≤ |v|)

/-- `RlxCoarseCalculationManager.check_calc` (rlx_coarse.py 107-169),
returning its boolean result and the side effects performed.  Note
`len(archive_dirs) >= max_reruns - 1` is a Python int comparison; for the
natural-number model `maxReruns - 1` truncates at 0, which agrees with the
Python test for every archive count. -/
def rlxCoarseCheckCalc (toRerun : Bool) (maxReruns : Nat) (st : RelaxState) :
    Bool × CheckEffects :=
  if st.jobComplete = false then (false, noEffects)
  else if st.stdoutExists = false then
    (false, if toRerun then
      { noEffects with cancelCalled := true, setups := [setupDefault] }
    else noEffects)
  else if 0 < st.vaspErrors.length then
    (if address_vasp_errors st.algo st.symprec st.vaspErrors then
      (false, if toRerun then
        { noEffects with setups := [{ setupDefault with makeArchive := true }] }
      else noEffects)
    else
      (false, { noEffects with stopCalled := true }))
  else if st.hasAccuracyMarker = false then
    (if maxReruns - 1 ≤ st.numArchives then (true, noEffects)
    else
      (false, if toRerun then
        { noEffects with setups :=
            [{ setupDefault with walltimeFactor := 2, makeArchive := true }] }
      else noEffects))
  else (true, noEffects)

/-- `RlxCalculationManager.check_calc` (rlx.py 103-182). -/
def rlxCheckCalc (toRerun : Bool) (maxReruns : Nat) (cutoff : ℚ) (st : RelaxState) :
    Bool × CheckEffects :=
  if st.jobComplete = false then (false, noEffects)
  else if st.stdoutExists = false then
    (false, if toRerun then
      { noEffects with cancelCalled := true, setups := [setupDefault] }
    else noEffects)
  else if 0 < st.vaspErrors.length then
    (if address_vasp_errors st.algo st.symprec st.vaspErrors then
      (false, if toRerun then
        { noEffects with setups := [{ setupDefault with makeArchive := true }] }
      else noEffects)
    else
      (false, { noEffects with stopCalled := true }))
  else
    let useSpin := rlxUseSpin st.magmomPerAtom cutoff
    if st.hasAccuracyMarker = false then
      (if maxReruns - 1 ≤ st.numArchives then (false, noEffects)
      else
        (false, if toRerun then
          { noEffects with setups :=
              [{ setupDefault with
                 walltimeFactor := 2, makeArchive := true, useSpin := useSpin }] }
        else noEffects))
    else if useSpin = false ∧ st.magmomPerAtom ≠ none ∧ toRerun = true then
      (false, { noEffects with setups :=
          [{ setupDefault with makeArchive := true, useSpin := false }] })
    else (true, noEffects)

/-- `RlxCalculationManager.check_volume_difference` (rlx.py 184-243),
with exact rational volumes for the stage's POSCAR and CONTCAR.
`contcarReadable` is whether loading the three structures succeeded.
The test is `np.abs(volume_diff) >= 0.05` with
`volume_diff = (V_contcar - V_poscar) / V_poscar`. -/
def checkVolumeDifference (toRerun : Bool) (magmom : Option ℚ) (cutoff : ℚ)
    (contcarReadable : Bool) (vP vC : ℚ) : Bool × List SetupArgs :=
  if contcarReadable = false then (false, [])
  else if 5 / 100 ≤ |(vC - vP) / vP| then
    (false, if toRerun then
      [{ setupDefault with makeArchive := true, useSpin := rlxUseSpin magmom cutoff }]
    else [])
  else (true, [])

/-- `pgrep` over in-memory log lines: the lines containing `pat`. -/
def pgrepLines (pat : String) (lines : List String) : List String :=
  lines.filter (fun l => strContains l pat)

/-- Parsing of the last "Total: K/N" line in
`ElasticCalculationManager.check_calc` (elastic.py 147-150):
`line.replace("/", " ").strip().split()`, then `int(tokens[-2])` and
`int(tokens[-1])` (an `IndexError` or `ValueError` propagates). -/
def parseDeformCounts (line : String) : Except PyExn (Int × Int) :=
  let toks := pySplitWs (line.data.map (fun c => if c = '/' then ' ' else c))
  match toks.reverse with
  | nTok :: kTok :: _ =>
    match parseIntChars kTok with
    | none => .error .valueError
    | some k =>
      match parseIntChars nTok with
      | none => .error .valueError
      | some n => .ok (k, n)
  | _ => .error .indexError

/-- Observable state of the elastic stage directory: as `RelaxState`, plus
the raw stdout lines scanned for "Total". -/
structure ElasticState where
  jobComplete : Bool
  stdoutExists : Bool
  vaspErrors : List String
  algo : String
  symprec : String
  stdoutLines : List String

/-- `ElasticCalculationManager.check_calc` (elastic.py 98-164).  Retry
paths call `self._from_scratch()` before `setup_calc`, recorded in the
`fromScratch` field of the setup arguments. -/
def elasticCheckCalc (toRerun : Bool) (st : ElasticState) :
    Except PyExn (Bool × CheckEffects) :=
  if st.jobComplete = false then .ok (false, noEffects)
  else if st.stdoutExists = false then
    .ok (false, if toRerun then
      { noEffects with setups := [{ setupDefault with fromScratch := true }] }
    else noEffects)
  else if 0 < st.vaspErrors.length then
    (if address_vasp_errors st.algo st.symprec st.vaspErrors then
      .ok (false, if toRerun then
        { noEffects with setups := [{ setupDefault with fromScratch := true }] }
      else noEffects)
    else
      .ok (false, { noEffects with stopCalled := true }))
  else
    match (pgrepLines "Total" st.stdoutLines).getLast? with
    | none =>
      .ok (false, if toRerun then
        { noEffects with setups := [{ setupDefault with fromScratch := true }] }
      else noEffects)
    | some line =>
      match parseDeformCounts line with
      | .error e => .error e
      | .ok (k, n) =>
        if k ≠ n then
          .ok (false, if toRerun then
            { noEffects with setups :=
                [{ setupDefault with fromScratch := true, walltimeFactor := 2 }] }
          else noEffects)
        else .ok (true, noEffects)

/-- A directory's plain files: (name, contents) pairs. -/
abbrev FS := List (String × String)

/-- The file filter of `VaspInputCreator.make_archive_and_repopulate`
(vasp_input_creator.py 498-516): plain files whose name contains
"archive" or "json" are left in place; all others are moved (or, when no
archive is made, removed). -/
def nameKept (n : String) : Bool :=
  strContains n "archive" || strContains n "json"

/-- The name of the k-th archive directory. -/
def archiveName (k : Nat) : String :=
  "archive_" ++ toString k

/-- A stage directory: its plain files and its `archive_i` subdirectories
(the i-th created archive is the i-th list entry and carries the name
`archiveName i`; globbing `archive*` counts this list). -/
structure StageDir where
  files : FS
  archives : List (String × FS)

/-- Does `CONTCAR` exist in `fs` with non-zero size?
(vasp_input_creator.py 489-494). -/
def contcarNonempty (fs : FS) : Bool :=
  match fs.lookup "CONTCAR" with
  | some c => c ≠ ""
  | none => false

/-- `VaspInputCreator.make_archive_and_repopulate`
(vasp_input_creator.py 484-525): if the previous attempt left a non-empty
CONTCAR, create `archive_{num_previous_archives}` and move every plain
file not matching the keep filter into it; otherwise just delete those
files.  Afterwards `self.create()` rewrites the input files; `newFiles`
stands for the new attempt's eventual plain files (inputs plus the next
job run's outputs).  The code's symlink special case (a symlink is
replaced by a copy of its target before the move) is invisible here
because files are modelled by name and contents only. -/
def makeArchiveAndRepopulate (d : StageDir) (newFiles : FS) : StageDir :=
  if contcarNonempty d.files then
    { files := d.files.filter (fun f => nameKept f.1) ++ newFiles,
      archives := d.archives ++
        [(archiveName d.archives.length, d.files.filter (fun f => nameKept f.1 = false))] }
  else
    { files := d.files.filter (fun f => nameKept f.1) ++ newFiles,
      archives := d.archives }

/-- `VaspInputCreator.source_structure` (vasp_input_creator.py 106-118):
when `archive*` directories exist, the POSCAR source is
`archive_{num_archives-1}/CONTCAR` — the most recently created archive,
i.e. the last entry of `archives`; otherwise the configured source
(`orig`).  Returns the contents of the file that would be read. -/
def sourceContcar (orig : Option String) (d : StageDir) : Option String :=
  match d.archives.getLast? with
  | some a => a.2.lookup "CONTCAR"
  | none => orig

/-- A sequence of retry-with-archive steps: each element of `attempts` is
the next attempt's eventual plain-file set. -/
def retryN (d : StageDir) : List FS → StageDir
  | [] => d
  | nf :: rest => retryN (makeArchiveAndRepopulate d nf) rest

/-- The naturals `s, s+1, ..., s+n-1`. -/
def rangeFrom (s : Nat) : Nat → List Nat
  | 0 => []
  | Nat.succ n => s :: rangeFrom (s + 1) n

/-- The five calculation types, in pipeline order
(vasp_manager.py 127-133). -/
inductive Mode
  | rlxCoarse
  | rlx
  | staticM
  | bulkmod
  | elastic
deriving DecidableEq

/-- A value stored for one material and mode in `results.json`: Python
`None`, the string "not finished", the string "STOPPED", the string
"done", or a stage-specific payload. -/
inductive RVal
  | nullV
  | notFinishedV
  | stoppedV
  | doneV
  | payloadV (s : String)
deriving DecidableEq

/-- `VaspManager._check_calc_by_result` (vasp_manager.py 242-267):
done iff the stored value is not in `[None, "STOPPED", "not finished"]`. -/
def rvalIsDone : RVal → Bool
  | .nullV => false
  | .notFinishedV => false
  | .stoppedV => false
  | .doneV => true
  | .payloadV _ => true

/-- Modes that break the per-material loop right after `setup_calc`
(vasp_manager.py 375-379). -/
def isRlxMode : Mode → Bool
  | .rlxCoarse => true
  | .rlx => true
  | _ => false

/-- Modes that break the per-material loop when not done
(vasp_manager.py 382-391). -/
def breaksWhenNotDone : Mode → Bool
  | .rlxCoarse => true
  | .rlx => true
  | .elastic => true
  | _ => false

/-- One calculation manager of a material, as observed during one
orchestrator pass: its mode and `from_scratch` flag, what `job_exists`
and `is_done` evaluate to at their point in the pass, what `results`
returns, and the `setup_calc` invocations that evaluating `is_done`
(i.e. `check_calc`) performs as side effects. -/
structure MgrState where
  mode : Mode
  fromScratch : Bool
  jobExists : Bool
  isDone : Bool
  resultsVal : RVal
  checkSetups : List Mode
deriving DecidableEq

/-- `VaspManager._manage_calculations` (vasp_manager.py 351-394) for one
material: walks the managers in order; skips modes recorded done in the
store; on the STOP marker records "STOPPED" and breaks; calls
`setup_calc` when no job exists (breaking for the rlx modes); breaks when
an rlx/elastic mode is not done; otherwise records `results` and
continues.  Returns the material's result updates and the list of all
`setup_calc` invocations of the pass (direct ones named by their mode,
plus those performed inside `check_calc`). -/
def managePass (stop : Bool) (stored : Mode → Option RVal) :
    List MgrState → List (Mode × RVal) × List Mode
  | [] => ([], [])
  | m :: rest =>
    let doneInStore :=
      match stored m.mode with
      | some v => rvalIsDone v
      | none => false
    if doneInStore && !m.fromScratch then managePass stop stored rest
    else if stop then ([(m.mode, RVal.stoppedV)], [])
    else
      let setupEvs : List Mode := if m.jobExists = false then [m.mode] else []
      if m.jobExists = false && isRlxMode m.mode then ([], setupEvs)
      else
        let evs := setupEvs ++ m.checkSetups
        if m.isDone = false && breaksWhenNotDone m.mode then ([], evs)
        else
          let res := managePass stop stored rest
          ((m.mode, m.resultsVal) :: res.1, evs ++ res.2)

/-- `VaspManager.run_calculations` (vasp_manager.py 410-423) merges each
material's pass results into the store with `dict.update` (each mode
occurs at most once in `upd`). -/
def updateStore (stored : Mode → Option RVal) (upd : List (Mode × RVal)) :
    Mode → Option RVal :=
  fun m =>
    match upd.lookup m with
    | some v => some v
    | none => stored m

/-- N orchestrator passes over one material: pass i sees manager states
`mgrs i` (job status and logs may change between passes), threads the
persisted store through `updateStore`, and accumulates every
`setup_calc` invocation. -/
def runPasses (stop : Bool) (mgrs : Nat → List MgrState)
    (stored : Mode → Option RVal) : Nat → (Mode → Option RVal) × List Mode
  | 0 => (stored, [])
  | Nat.succ n =>
    let p := managePass stop stored (mgrs 0)
    let rest := runPasses stop (fun i => mgrs (i + 1)) (updateStore stored p.1) n
    (rest.1, p.2 ++ rest.2)

/-- An empty per-material result store (no stage recorded yet). -/
def emptyStore : Mode → Option RVal := fun _ => none

/-- `RlxCoarseCalculationManager.results` (rlx_coarse.py 177-186). -/
def coarseResultsVal (isDone stopped : Bool) : RVal :=
  if isDone then .doneV
  else if stopped then .stoppedV
  else .notFinishedV

/-- The rlx-coarse stage directory of the NaCl scenario as seen on the
second pass: job finished, clean log with the convergence marker, no
archives. -/
def naclCoarseState2 : RelaxState :=
  { jobComplete := true, stdoutExists := true, vaspErrors := [],
    algo := "Normal", symprec := "1e-05", magmomPerAtom := none,
    hasAccuracyMarker := true, numArchives := 0 }

/-- NaCl scenario, pass 1: rlx-coarse never ran (no job, not done). -/
def naclMgrsPass1 : List MgrState :=
  [ { mode := .rlxCoarse, fromScratch := false, jobExists := false,
      isDone := false, resultsVal := coarseResultsVal false false,
      checkSetups := [] },
    { mode := .rlx, fromScratch := false, jobExists := false,
      isDone := false, resultsVal := .nullV, checkSetups := [] } ]

/-- NaCl scenario, pass 2: the rlx-coarse job exists and its `check_calc`
(evaluated on `naclCoarseState2`) reports done; the rlx stage has no job
yet. -/
def naclMgrsPass2 : List MgrState :=
  [ { mode := .rlxCoarse, fromScratch := false, jobExists := true,
      isDone := (rlxCoarseCheckCalc true 3 naclCoarseState2).1,
      resultsVal := coarseResultsVal (rlxCoarseCheckCalc true 3 naclCoarseState2).1 false,
      checkSetups := (rlxCoarseCheckCalc true 3 naclCoarseState2).2.setups.map
        (fun _ => Mode.rlxCoarse) },
    { mode := .rlx, fromScratch := false, jobExists := false,
      isDone := false, resultsVal := .nullV, checkSetups := [] } ]

/-- Results and events of NaCl pass 1. -/
def naclPass1 : List (Mode × RVal) × List Mode :=
  managePass false emptyStore naclMgrsPass1

/-- The persisted store after NaCl pass 1. -/
def naclStore1 : Mode → Option RVal :=
  updateStore emptyStore naclPass1.1

/-- Results and events of NaCl pass 2. -/
def naclPass2 : List (Mode × RVal) × List Mode :=
  managePass false naclStore1 naclMgrsPass2

/-- The persisted store after NaCl pass 2. -/
def naclStore2 : Mode → Option RVal :=
  updateStore naclStore1 naclPass2.1

/-- The remediation conditions as the specification words them: a tag
counts as remediated only if it is the solver-instability tag with the
current ALGO differing from the proposed "Fast", the Bravais tag with the
current SYMPREC differing from "1e-08", or the out-of-memory tag. -/
def RemediatedSpec (algo symprec e : String) : Prop :=
  (e = "Sub-Space-Matrix" ∧ algo ≠ "Fast") ∨
  (e = "Inconsistent Bravais" ∧ symprec ≠ "1e-08") ∨
  e = "oom-kill"

/-- The archive-and-resubmit setup with doubled walltime used by both
relaxation stages below the rerun bound. -/
def retrySetup (useSpin : Bool) : SetupArgs :=
  { setupDefault with walltimeFactor := 2, makeArchive := true, useSpin := useSpin }

/-- Conclusion of the archive-monotonicity claim for a stage directory
`d0` (initially without archives) and the file sets of `attempts.length`
consecutive retried attempts: afterwards exactly `attempts.length`
archives exist, named `archive_0 .. archive_{N-1}` in creation order;
every intermediate archive list is a prefix of the final one (nothing is
overwritten or deleted); and each single retry step appends exactly one
new archive holding the moved files of the prior attempt, whose CONTCAR
the next attempt's `source_structure` reads. -/
def ArchiveConclusion (orig : Option String) (d0 : StageDir) (attempts : List FS) : Prop :=
  (retryN d0 attempts).archives.length = attempts.length ∧
  (retryN d0 attempts).archives.map Prod.fst =
    (rangeFrom 0 attempts.length).map archiveName ∧
  (∀ l1 l2, attempts = l1 ++ l2 →
    (retryN d0 l1).archives <+: (retryN d0 attempts).archives) ∧
  (∀ d nf, contcarNonempty d.files = true →
    sourceContcar orig (makeArchiveAndRepopulate d nf) = d.files.lookup "CONTCAR" ∧
    (makeArchiveAndRepopulate d nf).archives =
      d.archives ++ [(archiveName d.archives.length,
        d.files.filter (fun f => nameKept f.1 = false))])

/-- Witness stage directory for the archive claim. -/
def c3d0 : StageDir :=
  { files := [("CONTCAR", "s0"), ("POSCAR", "p0"), ("calc_config.json", "cfg")],
    archives := [] }

/-- Witness attempts for the archive claim. -/
def c3attempts : List FS :=
  [[("CONTCAR", "s1"), ("POSCAR", "p1")], [("CONTCAR", "s2"), ("POSCAR", "p2")]]

/-- The state reached after a successful first submission in the
idempotence witness. -/
def jmSubmitted : JMState :=
  { jobidFile := some "12345\n", cachedJobid := some 12345,
    cachedComplete := none, subCount := 1, pollCount := 0 }

/-- A stage directory whose marker file holds non-numeric text. -/
def jmBadMarker : JMState :=
  { jobidFile := some "Submitted batch job\n", cachedJobid := none,
    cachedComplete := none, subCount := 0, pollCount := 0 }

/-- Witness stage state for the remediation claim: the solver-instability
signature was detected while ALGO is already "Fast". -/
def stAlreadyFast : RelaxState :=
  { jobComplete := true, stdoutExists := true, vaspErrors := ["Sub-Space-Matrix"],
    algo := "Fast", symprec := "1e-05", magmomPerAtom := none,
    hasAccuracyMarker := false, numArchives := 0 }

/-- Witness stage state for the rerun-bound claim: complete job, clean
log, no convergence marker, two archives already present. -/
def stManyArchives : RelaxState :=
  { jobComplete := true, stdoutExists := true, vaspErrors := [],
    algo := "Normal", symprec := "1e-05", magmomPerAtom := some 1,
    hasAccuracyMarker := false, numArchives := 2 }

/-- Witness elastic stage state with a complete deformation count. -/
def stElasticDone : ElasticState :=
  { jobComplete := true, stdoutExists := true, vaspErrors := [],
    algo := "Normal", symprec := "1e-05",
    stdoutLines := ["running 36 deformations", "Total: 36/36"] }

theorem managePass_stop_events (stored : Mode → Option RVal) (mgrs : List MgrState) :
    (managePass true stored mgrs).2 = [] := by
  induction mgrs with
  | nil => rfl
  | cons m rest ih =>
    simp only [managePass]
    split
    · exact ih
    · rfl

/-- Claim C1: once the STOP marker exists for a material, every further
orchestrator pass performs no `setup_calc` invocation at all for that
material (hence writes no new job-id file and creates no new archive
directory), for any number of passes, any persisted store contents, and
any evolution of the managers' observable state — until the marker is
removed externally (`stop` would then no longer be true). -/
theorem c1_stop_terminal (mgrs : Nat → List MgrState)
    (stored : Mode → Option RVal) (n : Nat) :
    (runPasses true mgrs stored n).2 = [] := by
  induction n generalizing mgrs stored with
  | zero => rfl
  | succ n ih =>
    simp only [runPasses]
    rw [managePass_stop_events, ih]
    rfl

/-- Claim C6 (code bug): reading `job_complete` twice on one instance.
With the job marker present, the first read on the "personal" escape
hatch yields `true` with no `squeue` poll, but the second read yields
`false` — the cached value is overwritten by the `else` branch instead
of being returned.  On a cluster the first read polls once and yields
`true` (job absent from the queue); the second read again yields `false`
while correctly not repeating the poll (the total stays 1).  The third
conjunct confirms `_check_job_complete` unconditionally reports complete
on the personal escape hatch. -/
theorem c6_job_complete_cache_bug :
    jcTwice envPersonal jmWithJob = .ok (true, false, 0) ∧
    jcTwice envQuest jmWithJob = .ok (true, false, 1) ∧
    (∀ id st, check_job_complete envPersonal id st = (true, st)) :=
  ⟨rfl, rfl, fun _ _ => rfl⟩

/-- Claim C9 (counterexample): in the NaCl scenario the orchestrator
invokes the Relax stage's `setup_calc` already during the second pass —
immediately after rlx-coarse is found done in that same pass — refuting
"the setup of the Relax stage occurs on the third pass, not the second". -/
theorem c9_relax_setup_on_second_pass : Mode.rlx ∈ naclPass2.2 := by decide

/-- Claim C9 (amended): in the NaCl scenario, the first pass performs
exactly one `setup_calc` (for rlx-coarse) and records no results; after
the second pass the persisted store holds exactly
"rlx-coarse" ↦ "done" and nothing else; and the Relax stage's
`setup_calc` runs on the second pass (the one-stage-per-pass break
applies only to the stage just set up — a stage found done lets the next
stage advance within the same pass). -/
theorem c9_end_to_end :
    naclPass1 = ([], [Mode.rlxCoarse]) ∧
    naclPass2.1 = [(Mode.rlxCoarse, RVal.doneV)] ∧
    naclStore2 Mode.rlxCoarse = some RVal.doneV ∧
    naclStore2 Mode.rlx = none ∧
    naclStore2 Mode.staticM = none ∧
    naclStore2 Mode.bulkmod = none ∧
    naclStore2 Mode.elastic = none ∧
    naclPass2.2 = [Mode.rlx] :=
  ⟨rfl, rfl, rfl, rfl, rfl, rfl, rfl, rfl⟩

/-- Claim C2 (counterexample): in a stage directory with no job marker,
on a cluster whose scheduler script is missing, both consecutive
`submit_job` calls return false — refuting "the second call ... returns
true" as universally stated (no job id is ever produced here). -/
theorem c2_second_call_not_true :
    submitTwice envNoScript jmEmpty = .ok (false, false) := rfl

theorem job_exists_false_state (st st0 : JMState)
    (h : job_exists st = .ok (false, st0)) : st0 = st := by
  unfold job_exists at h
  split at h
  · simp only [Except.ok.injEq, Prod.mk.injEq] at h
    exact h.2.symm
  · split at h
    · simp only [Except.ok.injEq, Prod.mk.injEq] at h
      exact h.2.symm
    · split at h
      · simp at h
      · simp at h

theorem job_exists_true_fix (st st0 : JMState)
    (h : job_exists st = .ok (true, st0)) : job_exists st0 = .ok (true, st0) := by
  unfold job_exists at h
  split at h
  · simp at h
  next content heq =>
    split at h
    · simp at h
    next hne =>
      split at h
      next n hp =>
        simp only [Except.ok.injEq, Prod.mk.injEq, true_and] at h
        subst h
        unfold job_exists
        simp [heq, hne, hp]
      · simp at h

theorem job_exists_subCount (st : JMState) (b : Bool) (st0 : JMState)
    (h : job_exists st = .ok (b, st0)) : st0.subCount = st.subCount := by
  unfold job_exists at h
  split at h
  · simp only [Except.ok.injEq, Prod.mk.injEq] at h
    rw [← h.2]
  · split at h
    · simp only [Except.ok.injEq, Prod.mk.injEq] at h
      rw [← h.2]
    · split at h
      · simp only [Except.ok.injEq, Prod.mk.injEq] at h
        rw [← h.2]
      · simp at h

/-- Claim C2 (amended): calling `submit_job` twice in a row with no
external state change never produces two distinct job ids — the second
call returns exactly the first call's result with the state unchanged
(in particular it runs no `sbatch` and leaves the marker file's contents
untouched), and at most one submission happens across both calls.  When
the first call wrote or found a non-empty marker it returns true and so
does the second; the one deviation from the claim as stated is the
missing-scheduler-script case, where both calls return false (see the
counterexample). -/
theorem c2_submit_idempotent (env : JobEnv) (st st1 : JMState) (b1 : Bool)
    (hwf : EnvWF env) (h1 : submit_job env st = .ok (b1, st1)) :
    submit_job env st1 = .ok (b1, st1) ∧ st1.subCount ≤ st.subCount + 1 := by
  have hfalse : ∀ st' : JMState, job_exists st' = .ok (false, st') →
      submit_job env st' = .ok (b1, st1) →
      submit_job env st1 = .ok (b1, st1) ∧ st1.subCount ≤ st'.subCount + 1 := by
    intro st' hje h1'
    simp only [submit_job, hje] at h1'
    by_cases hp : strContains env.computer "personal" = true
    · rw [if_pos hp] at h1'
      simp only [Except.ok.injEq, Prod.mk.injEq] at h1'
      obtain ⟨hb, hst⟩ := h1'
      subst hb; subst hst
      refine ⟨?_, Nat.le_succ _⟩
      simp only [submit_job, hje]
      rw [if_pos hp]
    · rw [if_neg hp] at h1'
      by_cases he : env.exeExists = false
      · rw [if_pos he] at h1'
        simp only [Except.ok.injEq, Prod.mk.injEq] at h1'
        obtain ⟨hb, hst⟩ := h1'
        subst hb; subst hst
        refine ⟨?_, Nat.le_succ _⟩
        simp only [submit_job, hje]
        rw [if_neg hp, if_pos he]
      · rw [if_neg he] at h1'
        simp only [Except.ok.injEq, Prod.mk.injEq] at h1'
        obtain ⟨hb, hst⟩ := h1'
        subst hb; subst hst
        have hwfk := hwf st'.subCount
        have hne : (toString (env.sbatchIds st'.subCount) ++ "\n") ≠ "" := by
          intro hcontra
          rw [hcontra] at hwfk
          simp [pyStrip, parseIntChars] at hwfk
        constructor
        · simp only [submit_job, job_exists, hne, if_neg, hwfk]
          simp [hne, hwfk]
        · exact Nat.le_refl _
  cases hje : job_exists st with
  | error e => simp [submit_job, hje] at h1
  | ok p =>
    obtain ⟨b0, st0⟩ := p
    cases b0 with
    | false =>
      have hst0 : st0 = st := job_exists_false_state st st0 hje
      subst hst0
      exact hfalse st0 hje h1
    | true =>
      have hje0 : job_exists st0 = .ok (true, st0) := job_exists_true_fix st st0 hje
      simp only [submit_job, hje] at h1
      simp only [Except.ok.injEq, Prod.mk.injEq] at h1
      obtain ⟨hb, hst⟩ := h1
      subst hb
      rw [← hst]
      refine ⟨by simp [submit_job, hje0], ?_⟩
      rw [job_exists_subCount st true st0 hje]
      exact Nat.le_succ _

theorem envQuest_wf : EnvWF envQuest := by
  intro k
  show parseIntChars (pyStrip ((toString (12345 : Nat)) ++ "\n").data)
    = some (Int.ofNat 12345)
  decide

/-- Witness for claim C2: on a cluster with the scheduler script present,
a first submission from a fresh directory writes job id 12345, and the
second call returns the same result with the state untouched. -/
theorem c2_submit_idempotent_witness :
    EnvWF envQuest ∧
    submit_job envQuest jmEmpty = .ok (true, jmSubmitted) ∧
    (submit_job envQuest jmSubmitted = .ok (true, jmSubmitted) ∧
      jmSubmitted.subCount ≤ jmEmpty.subCount + 1) :=
  ⟨envQuest_wf, by rfl,
    c2_submit_idempotent envQuest jmEmpty jmSubmitted true envQuest_wf (by rfl)⟩

/-- Claim C10: `job_exists` returns false when the marker file is absent
or empty; when the contents parse as an integer it returns true and
caches the parsed id (which the `jobid` getter then yields); when the
non-empty contents do not parse, `job_exists` raises `RuntimeError`
instead of returning — so every read of the job id either yields an
integer or raises. -/
theorem c10_job_exists_cases (st : JMState) :
    (st.jobidFile = none → job_exists st = .ok (false, st)) ∧
    (st.jobidFile = some "" → job_exists st = .ok (false, st)) ∧
    (∀ s n, st.jobidFile = some s → s ≠ "" →
      parseIntChars (pyStrip s.data) = some n →
      job_exists st = .ok (true, { st with cachedJobid := some n }) ∧
      jobid_get st = .ok (n, { st with cachedJobid := some n })) ∧
    (∀ s, st.jobidFile = some s → s ≠ "" →
      parseIntChars (pyStrip s.data) = none →
      job_exists st = .error .runtimeError ∧
      jobid_get st = .error .runtimeError) := by
  refine ⟨fun h => by simp [job_exists, h],
    fun h => by simp [job_exists, h],
    fun s n hs hne hp => ?_,
    fun s hs hne hp => ?_⟩
  · have hje : job_exists st = .ok (true, { st with cachedJobid := some n }) := by
      simp [job_exists, hs, hne, hp]
    exact ⟨hje, by simp [jobid_get, hje]⟩
  · have hje : job_exists st = .error .runtimeError := by
      simp [job_exists, hs, hne, hp]
    exact ⟨hje, by simp [jobid_get, hje]⟩

/-- Witness for claim C10: the marker "12345\n" yields id 12345 through
both `job_exists` and the `jobid` getter, while the non-numeric marker
"Submitted batch job\n" makes `job_exists` raise `RuntimeError`. -/
theorem c10_job_exists_cases_witness :
    (jmWithJob.jobidFile = some "12345\n" ∧ ("12345\n" : String) ≠ "" ∧
      parseIntChars (pyStrip ("12345\n").data) = some 12345 ∧
      job_exists jmWithJob = .ok (true, { jmWithJob with cachedJobid := some 12345 }) ∧
      jobid_get jmWithJob = .ok (12345, { jmWithJob with cachedJobid := some 12345 })) ∧
    (jmBadMarker.jobidFile = some "Submitted batch job\n" ∧
      ("Submitted batch job\n" : String) ≠ "" ∧
      parseIntChars (pyStrip ("Submitted batch job\n").data) = none ∧
      job_exists jmBadMarker = .error .runtimeError) :=
  ⟨⟨rfl, by decide, by decide,
    ((c10_job_exists_cases jmWithJob).2.2.1 "12345\n" 12345 rfl (by decide) (by decide)).1,
    ((c10_job_exists_cases jmWithJob).2.2.1 "12345\n" 12345 rfl (by decide) (by decide)).2⟩,
   ⟨rfl, by decide, by decide,
    ((c10_job_exists_cases jmBadMarker).2.2.2 "Submitted batch job\n" rfl
      (by decide) (by decide)).1⟩⟩

theorem addressError_iff (algo symprec e : String) :
    addressError algo symprec e = true ↔ RemediatedSpec algo symprec e := by
  unfold addressError RemediatedSpec
  split_ifs with h1 h2 h3 h4 h5 <;> simp_all

/-- Claim C4: `_address_vasp_errors` returns true iff every found tag is
remediated — "Sub-Space-Matrix" only when the current INCAR ALGO differs
from the proposed "Fast", "Inconsistent Bravais" only when SYMPREC
differs from "1e-08", "oom-kill" always, any other tag never; and
whenever it returns false on a completed job's non-empty error set,
`check_calc` writes the STOP marker and performs no `setup_calc`
(no resubmission). -/
theorem c4_address_errors (st : RelaxState) (toRerun : Bool) (maxReruns : Nat) :
    (address_vasp_errors st.algo st.symprec st.vaspErrors = true ↔
      ∀ e ∈ st.vaspErrors, RemediatedSpec st.algo st.symprec e) ∧
    (st.jobComplete = true → st.stdoutExists = true → st.vaspErrors ≠ [] →
      address_vasp_errors st.algo st.symprec st.vaspErrors = false →
      rlxCoarseCheckCalc toRerun maxReruns st =
        (false, { noEffects with stopCalled := true })) := by
  constructor
  · unfold address_vasp_errors
    rw [List.all_eq_true]
    constructor
    · intro h e he
      exact (addressError_iff st.algo st.symprec e).mp (h e he)
    · intro h e he
      exact (addressError_iff st.algo st.symprec e).mpr (h e he)
  · intro hjc hso hne hfail
    have hlen : 0 < st.vaspErrors.length := List.length_pos.mpr hne
    simp [rlxCoarseCheckCalc, hjc, hso, hlen, hfail]

/-- Witness for claim C4: the solver-instability tag found again while
ALGO is already "Fast" is unaddressed, and `check_calc` stops the stage
without resubmitting. -/
theorem c4_address_errors_witness :
    stAlreadyFast.jobComplete = true ∧ stAlreadyFast.stdoutExists = true ∧
    stAlreadyFast.vaspErrors ≠ [] ∧
    address_vasp_errors stAlreadyFast.algo stAlreadyFast.symprec
      stAlreadyFast.vaspErrors = false ∧
    rlxCoarseCheckCalc true 3 stAlreadyFast =
      (false, { noEffects with stopCalled := true }) :=
  ⟨rfl, rfl, by decide, by decide,
    (c4_address_errors stAlreadyFast true 3).2 rfl rfl (by decide) (by decide)⟩

/-- Claim C5: on a completed job with a clean log (no failure signatures)
and no "reached required accuracy" marker, with at least
`max_reruns - 1` archives the coarse relax `check_calc` returns true
(continue the pipeline) while the fine relax `check_calc` returns false
(refuse to continue) — neither performing any side effect; below that
bound both retry by archive-and-resubmit with doubled walltime. -/
theorem c5_max_reruns_asymmetry (maxReruns : Nat) (cutoff : ℚ)
    (stC stF : RelaxState)
    (hC1 : stC.jobComplete = true) (hC2 : stC.stdoutExists = true)
    (hC3 : stC.vaspErrors = []) (hC4 : stC.hasAccuracyMarker = false)
    (hF1 : stF.jobComplete = true) (hF2 : stF.stdoutExists = true)
    (hF3 : stF.vaspErrors = []) (hF4 : stF.hasAccuracyMarker = false) :
    (maxReruns - 1 ≤ stC.numArchives →
      ∀ toRerun, rlxCoarseCheckCalc toRerun maxReruns stC = (true, noEffects)) ∧
    (maxReruns - 1 ≤ stF.numArchives →
      ∀ toRerun, rlxCheckCalc toRerun maxReruns cutoff stF = (false, noEffects)) ∧
    (stC.numArchives < maxReruns - 1 →
      rlxCoarseCheckCalc true maxReruns stC =
        (false, { noEffects with setups := [retrySetup true] })) ∧
    (stF.numArchives < maxReruns - 1 →
      rlxCheckCalc true maxReruns cutoff stF =
        (false, { noEffects with
          setups := [retrySetup (rlxUseSpin stF.magmomPerAtom cutoff)] })) := by
  refine ⟨fun hge toRerun => ?_, fun hge toRerun => ?_, fun hlt => ?_, fun hlt => ?_⟩
  · simp [rlxCoarseCheckCalc, hC1, hC2, hC3, hC4, hge]
  · simp [rlxCheckCalc, hF1, hF2, hF3, hF4, hge]
  · simp [rlxCoarseCheckCalc, hC1, hC2, hC3, hC4, Nat.not_le.mpr hlt, retrySetup,
      setupDefault]
  · simp [rlxCheckCalc, hF1, hF2, hF3, hF4, Nat.not_le.mpr hlt, retrySetup,
      setupDefault]

/-- Witness for claim C5: with `max_reruns = 3` and two archives present,
the coarse stage continues (true) and the fine stage refuses (false);
with zero archives both would retry (the state below the bound reuses the
same fields with no archives). -/
theorem c5_max_reruns_asymmetry_witness :
    stManyArchives.jobComplete = true ∧ stManyArchives.stdoutExists = true ∧
    stManyArchives.vaspErrors = [] ∧ stManyArchives.hasAccuracyMarker = false ∧
    (3 - 1 ≤ stManyArchives.numArchives →
      ∀ toRerun, rlxCoarseCheckCalc toRerun 3 stManyArchives = (true, noEffects)) ∧
    (3 - 1 ≤ stManyArchives.numArchives →
      ∀ toRerun, rlxCheckCalc toRerun 3 (1 / 100) stManyArchives = (false, noEffects)) ∧
    rlxCoarseCheckCalc true 3 stManyArchives = (true, noEffects) ∧
    rlxCheckCalc true 3 (1 / 100) stManyArchives = (false, noEffects) := by
  have h := c5_max_reruns_asymmetry 3 (1 / 100) stManyArchives stManyArchives
    rfl rfl rfl rfl rfl rfl rfl rfl
  exact ⟨rfl, rfl, rfl, rfl, h.1, h.2.1,
    h.1 (by decide) true, h.2.1 (by decide) true⟩

/-- Claim C7: for the fine relax volume check with relative difference
d = (V_contcar - V_poscar)/V_poscar, |d| = 0.049 is accepted as
volume-converged, |d| = 0.051 returns false and (with rerun enabled)
triggers one archive-and-resubmit, and in general the check fails
exactly when |d| ≥ 0.05 — so exactly 5% also retries. -/
theorem c7_volume_boundary (toRerun : Bool) (magmom : Option ℚ)
    (cutoff vP vC : ℚ) :
    (|(vC - vP) / vP| = 49 / 1000 →
      checkVolumeDifference toRerun magmom cutoff true vP vC = (true, [])) ∧
    (|(vC - vP) / vP| = 51 / 1000 →
      (checkVolumeDifference toRerun magmom cutoff true vP vC).1 = false ∧
      (toRerun = true →
        (checkVolumeDifference toRerun magmom cutoff true vP vC).2 =
          [{ setupDefault with
             makeArchive := true, useSpin := rlxUseSpin magmom cutoff }])) ∧
    ((checkVolumeDifference toRerun magmom cutoff true vP vC).1 = false ↔
      5 / 100 ≤ |(vC - vP) / vP|) := by
  refine ⟨fun h49 => ?_, fun h51 => ?_, ?_⟩
  · have hlt : ¬ ((5 : ℚ) / 100 ≤ |(vC - vP) / vP|) := by rw [h49]; norm_num
    simp [checkVolumeDifference, hlt]
  · have hge : (5 : ℚ) / 100 ≤ |(vC - vP) / vP| := by rw [h51]; norm_num
    constructor
    · simp [checkVolumeDifference, hge]
    · intro ht
      simp [checkVolumeDifference, hge, ht]
  · by_cases hb : (5 : ℚ) / 100 ≤ |(vC - vP) / vP|
    · simp [checkVolumeDifference, hb]
    · simp [checkVolumeDifference, hb]

/-- Witness for claim C7: volumes 1000 → 1049 (4.9%, accepted) and
1000 → 1051 (5.1%, rejected). -/
theorem c7_volume_boundary_witness :
    (|((1049 : ℚ) - 1000) / 1000| = 49 / 1000 ∧
      checkVolumeDifference true none 0 true 1000 1049 = (true, [])) ∧
    (|((1051 : ℚ) - 1000) / 1000| = 51 / 1000 ∧
      (checkVolumeDifference true none 0 true 1000 1051).1 = false) := by
  have h49 : |((1049 : ℚ) - 1000) / 1000| = 49 / 1000 := by norm_num
  have h51 : |((1051 : ℚ) - 1000) / 1000| = 51 / 1000 := by norm_num
  exact ⟨⟨h49, (c7_volume_boundary true none 0 1000 1049).1 h49⟩,
    ⟨h51, ((c7_volume_boundary true none 0 1000 1051).2.1 h51).1⟩⟩

/-- Claim C8: elastic `check_calc` on a completed job with a clean log
parses the last "Total: K/N" line; it succeeds iff K equals N exactly;
any mismatch (including K < N) returns false and, with rerun enabled,
triggers a from-scratch resubmission with doubled walltime; and a
malformed line whose K or N fields are non-numeric raises a parse error
(propagated `ValueError`/`IndexError`) rather than silently succeeding
or failing. -/
theorem c8_elastic_total_parity (toRerun : Bool) (st : ElasticState)
    (line : String)
    (h1 : st.jobComplete = true) (h2 : st.stdoutExists = true)
    (h3 : st.vaspErrors = [])
    (h4 : (pgrepLines "Total" st.stdoutLines).getLast? = some line) :
    (∀ k n, parseDeformCounts line = .ok (k, n) → k = n →
      elasticCheckCalc toRerun st = .ok (true, noEffects)) ∧
    (∀ k n, parseDeformCounts line = .ok (k, n) → k ≠ n →
      elasticCheckCalc toRerun st = .ok (false,
        if toRerun then
          { noEffects with setups :=
              [{ setupDefault with fromScratch := true, walltimeFactor := 2 }] }
        else noEffects)) ∧
    (∀ e, parseDeformCounts line = .error e →
      elasticCheckCalc toRerun st = .error e) := by
  refine ⟨fun k n hp hkn => ?_, fun k n hp hkn => ?_, fun e hp => ?_⟩
  · subst hkn
    simp [elasticCheckCalc, h1, h2, h3, h4, hp]
  · simp [elasticCheckCalc, h1, h2, h3, h4, hp, hkn]
  · simp [elasticCheckCalc, h1, h2, h3, h4, hp]

/-- Witness for claim C8: the log line "Total: 36/36" parses to K = N = 36
and the elastic check succeeds with no side effects. -/
theorem c8_elastic_total_parity_witness :
    stElasticDone.jobComplete = true ∧ stElasticDone.stdoutExists = true ∧
    stElasticDone.vaspErrors = [] ∧
    (pgrepLines "Total" stElasticDone.stdoutLines).getLast? = some "Total: 36/36" ∧
    parseDeformCounts "Total: 36/36" = .ok (36, 36) ∧
    elasticCheckCalc true stElasticDone = .ok (true, noEffects) := by
  refine ⟨rfl, rfl, rfl, by rfl, by rfl, ?_⟩
  exact (c8_elastic_total_parity true stElasticDone "Total: 36/36"
    rfl rfl rfl (by rfl)).1 36 36 (by rfl) rfl

theorem lookup_filter_out (q : String × String → Bool) (k : String)
    (l l2 : List (String × String)) (h : ∀ c, q (k, c) = false) :
    (l.filter q ++ l2).lookup k = l2.lookup k := by
  induction l with
  | nil => rfl
  | cons p t ih =>
    obtain ⟨n, c⟩ := p
    by_cases hq : q (n, c) = true
    · have hkn : (k == n) = false := by
        rcases eq_or_ne k n with rfl | hne
        · rw [h c] at hq
          exact absurd hq (by simp)
        · exact beq_eq_false_iff_ne.mpr hne
      simp [List.filter_cons, hq, List.lookup, hkn, ih]
    · simp [List.filter_cons, hq, ih]

theorem lookup_filter_keep (q : String × String → Bool) (k : String)
    (l : List (String × String)) (h : ∀ c, q (k, c) = true) :
    (l.filter q).lookup k = l.lookup k := by
  induction l with
  | nil => rfl
  | cons p t ih =>
    obtain ⟨n, c⟩ := p
    by_cases hkn : k = n
    · subst hkn
      simp [List.filter_cons, h c, List.lookup, ih]
    · have hb : (k == n) = false := beq_eq_false_iff_ne.mpr hkn
      by_cases hq : q (n, c) = true
      · simp [List.filter_cons, hq, List.lookup, hb, ih]
      · simp [List.filter_cons, hq, List.lookup, hb, ih]

theorem nameKept_contcar : nameKept "CONTCAR" = false := by decide

theorem contcar_after (fs nf : FS) :
    contcarNonempty (fs.filter (fun f => nameKept f.1) ++ nf) = contcarNonempty nf := by
  unfold contcarNonempty
  rw [lookup_filter_out (fun f => nameKept f.1) "CONTCAR" fs nf
    (fun _ => nameKept_contcar)]

theorem moved_contcar (fs : FS) :
    (fs.filter (fun f => nameKept f.1 = false)).lookup "CONTCAR" =
      fs.lookup "CONTCAR" :=
  lookup_filter_keep _ "CONTCAR" fs (fun c => by simp [nameKept_contcar])

theorem makeArchive_pos (d : StageDir) (nf : FS)
    (hd : contcarNonempty d.files = true) :
    makeArchiveAndRepopulate d nf =
      { files := d.files.filter (fun f => nameKept f.1) ++ nf,
        archives := d.archives ++
          [(archiveName d.archives.length,
            d.files.filter (fun f => nameKept f.1 = false))] } := by
  unfold makeArchiveAndRepopulate
  rw [if_pos hd]

theorem retryN_append (l1 l2 : List FS) (d : StageDir) :
    retryN d (l1 ++ l2) = retryN (retryN d l1) l2 := by
  induction l1 generalizing d with
  | nil => rfl
  | cons nf t ih => simp [retryN, ih]

theorem retryN_contcar (l : List FS) : ∀ d : StageDir,
    contcarNonempty d.files = true → (∀ nf ∈ l, contcarNonempty nf = true) →
    contcarNonempty (retryN d l).files = true := by
  induction l with
  | nil => exact fun d hd _ => hd
  | cons nf t ih =>
    intro d hd hall
    show contcarNonempty (retryN (makeArchiveAndRepopulate d nf) t).files = true
    apply ih
    · rw [makeArchive_pos d nf hd]
      show contcarNonempty (d.files.filter (fun f => nameKept f.1) ++ nf) = true
      rw [contcar_after]
      exact hall nf (List.mem_cons_self nf t)
    · exact fun x hx => hall x (List.mem_cons_of_mem nf hx)

theorem retryN_trio (attempts : List FS) : ∀ d : StageDir,
    contcarNonempty d.files = true →
    (∀ nf ∈ attempts, contcarNonempty nf = true) →
    (retryN d attempts).archives.length = d.archives.length + attempts.length ∧
    (retryN d attempts).archives.map Prod.fst =
      d.archives.map Prod.fst ++
        (rangeFrom d.archives.length attempts.length).map archiveName ∧
    d.archives <+: (retryN d attempts).archives := by
  induction attempts with
  | nil =>
    intro d _ _
    exact ⟨by simp [retryN], by simp [retryN, rangeFrom], by simp [retryN]⟩
  | cons nf rest ih =>
    intro d hd hall
    have hd2 : contcarNonempty (makeArchiveAndRepopulate d nf).files = true := by
      rw [makeArchive_pos d nf hd]
      show contcarNonempty (d.files.filter (fun f => nameKept f.1) ++ nf) = true
      rw [contcar_after]
      exact hall nf (List.mem_cons_self nf rest)
    obtain ⟨hL, hM, hP⟩ := ih (makeArchiveAndRepopulate d nf) hd2
      (fun x hx => hall x (List.mem_cons_of_mem nf hx))
    have harch : (makeArchiveAndRepopulate d nf).archives =
        d.archives ++ [(archiveName d.archives.length,
          d.files.filter (fun f => nameKept f.1 = false))] := by
      rw [makeArchive_pos d nf hd]
    refine ⟨?_, ?_, ?_⟩
    · show (retryN (makeArchiveAndRepopulate d nf) rest).archives.length = _
      rw [hL, harch]
      simp
      omega
    · show (retryN (makeArchiveAndRepopulate d nf) rest).archives.map Prod.fst = _
      rw [hM, harch]
      simp [rangeFrom, List.append_assoc]
    · show d.archives <+: (retryN (makeArchiveAndRepopulate d nf) rest).archives
      refine List.IsPrefix.trans ?_ hP
      rw [harch]
      exact List.prefix_append _ _

theorem sourceContcar_step (orig : Option String) (d : StageDir) (nf : FS)
    (hd : contcarNonempty d.files = true) :
    sourceContcar orig (makeArchiveAndRepopulate d nf) = d.files.lookup "CONTCAR" := by
  rw [makeArchive_pos d nf hd]
  unfold sourceContcar
  rw [show (d.archives ++ [(archiveName d.archives.length,
      d.files.filter (fun f => nameKept f.1 = false))]).getLast? =
      some (archiveName d.archives.length,
        d.files.filter (fun f => nameKept f.1 = false)) by
    exact List.getLast?_concat _]
  exact moved_contcar d.files

/-- Claim C3: starting from a stage directory with no archives, N
consecutive retry steps (each archiving a prior attempt whose CONTCAR
exists non-empty) leave exactly N archives named archive_0 .. archive_{N-1}
in creation order; the archive list after any earlier retry is a prefix
of the final one, so no archive is ever overwritten or deleted by a later
retry; and every single retry appends exactly one new archive holding the
prior attempt's moved files, whose CONTCAR (the previous attempt's final
structure) `source_structure` then reads for the new attempt. -/
theorem c3_archive_monotonicity (orig : Option String) (d0 : StageDir)
    (attempts : List FS) (h0 : d0.archives = [])
    (hd : contcarNonempty d0.files = true)
    (hall : ∀ nf ∈ attempts, contcarNonempty nf = true) :
    ArchiveConclusion orig d0 attempts := by
  obtain ⟨hL, hM, hP⟩ := retryN_trio attempts d0 hd hall
  refine ⟨?_, ?_, ?_, ?_⟩
  · rw [hL, h0]
    simp
  · rw [hM, h0]
    simp
  · intro l1 l2 hsplit
    subst hsplit
    have hall1 : ∀ nf ∈ l1, contcarNonempty nf = true :=
      fun x hx => hall x (List.mem_append_left _ hx)
    have hall2 : ∀ nf ∈ l2, contcarNonempty nf = true :=
      fun x hx => hall x (List.mem_append_right _ hx)
    have hinv : contcarNonempty (retryN d0 l1).files = true :=
      retryN_contcar l1 d0 hd hall1
    obtain ⟨_, _, hP2⟩ := retryN_trio l2 (retryN d0 l1) hinv hall2
    rw [retryN_append]
    exact hP2
  · intro d nf hd'
    refine ⟨sourceContcar_step orig d nf hd', ?_⟩
    rw [makeArchive_pos d nf hd']

/-- Witness for claim C3: two retries on a directory holding a non-empty
CONTCAR produce archives archive_0 and archive_1 with the stated
properties. -/
theorem c3_archive_monotonicity_witness :
    c3d0.archives = [] ∧ contcarNonempty c3d0.files = true ∧
    (∀ nf ∈ c3attempts, contcarNonempty nf = true) ∧
    ArchiveConclusion (some "orig") c3d0 c3attempts :=
  ⟨rfl, by decide, by decide,
    c3_archive_monotonicity (some "orig") c3d0 c3attempts rfl (by decide) (by decide)⟩
